import Mathlib

/-!
# A shallow embedding of the liburing user-space ring library

This file embeds, in Lean 4, the data model and the operations of
`src/include/liburing.h` (the user-space side of the io_uring
submission/completion ring protocol), and proves properties of the
completion path, the opcode preparation wrappers, the probe query and
the user-data round trip.

Machine integers are modelled as `Nat` (or `Int` for signed fields) with
an explicit `% 2^32` (resp. `% 2^64`) wherever the C code performs
32-bit (resp. 64-bit) unsigned arithmetic.  The kernel-shared indices of
the completion ring are 32-bit unsigned free-running counters; the
acquire/release annotations of the source are memory-ordering fences
with no sequential content, so in this sequential model a
`io_uring_smp_load_acquire` is a plain read and a
`io_uring_smp_store_release` is a plain write.

The repository ships only `liburing.h`; the headers it includes
(`liburing/io_uring.h` with `struct io_uring_sqe`, `struct
io_uring_cqe`, `struct io_uring_probe` and the `IORING_OP_*` constants,
and `liburing/barrier.h`) and the extern functions of `queue.c` are not
part of the sources.  Those parts are modelled from the specification
and are marked as such in their doc comments.
-/

set_option autoImplicit false

namespace Liburing

/-- 2^32, the modulus of the 32-bit unsigned ring indices. -/
def U32 : Nat := 4294967296

/-- 2^64, the modulus of 64-bit unsigned fields such as `user_data`. -/
def U64 : Nat := 18446744073709551616

/-- Source line 324: `#define LIBURING_UDATA_TIMEOUT ((__u64) -1)`,
the reserved user-data sentinel 2^64 - 1 that tags library-injected
timeout submissions. -/
def LIBURING_UDATA_TIMEOUT : Nat := U64 - 1

/-- Modelled from the spec: a completion entry carries the user-data
token, a 32-bit signed result (negative is an error code) and flags
(`struct io_uring_cqe` is declared in `liburing/io_uring.h`, which is
not under `src/`). -/
structure io_uring_cqe where
  user_data : Nat
  res : Int
  flags : Nat
deriving DecidableEq

/-- Modelled from the spec: a submission entry (`struct io_uring_sqe`
is declared in `liburing/io_uring.h`, which is not under `src/`).  The
fields follow the field list of the spec: opcode, per-entry flags,
I/O priority, target fd (`-1` meaning no file), offset, address,
length, per-opcode flags, user-data, fixed-buffer index, buffer-group
id, splice auxiliary fields and reserved padding.

The per-opcode flag fields (`rw_flags`, `fsync_flags`, `poll_events`,
`msg_flags`, `timeout_flags`, `accept_flags`, `cancel_flags`,
`open_flags`, `statx_flags`, `fadvise_advice`, `splice_flags`) share
one storage, modelled by the single field `op_flags`: the spec states
that the uniform preparation function clears all per-opcode flag
fields, while the source's `io_uring_prep_rw` writes only
`sqe->rw_flags = 0`, which forces those fields to alias (a union). -/
structure io_uring_sqe where
  opcode : Nat
  flags : Nat
  ioprio : Nat
  fd : Int
  off : Nat
  addr : Nat
  len : Nat
  op_flags : Nat
  user_data : Nat
  buf_index : Nat
  buf_group : Nat
  splice_fd_in : Int
  splice_off_in : Nat
  pad2 : Nat × Nat × Nat
deriving DecidableEq

/-- The `timeout_flags` member of the per-opcode flag union. -/
def io_uring_sqe.timeout_flags (s : io_uring_sqe) : Nat := s.op_flags

/-- Source lines 26-41: the submission-ring descriptor.  The pointer
fields of the C struct point into the shared mapping; here each points
at one value, so the descriptor holds the values directly.  `array`
and `sqes` are the mapped slot-indirection table and SQE storage,
modelled as total functions from index. -/
structure io_uring_sq where
  khead : Nat
  ktail : Nat
  kring_mask : Nat
  kring_entries : Nat
  kflags : Nat
  kdropped : Nat
  array : Nat → Nat
  sqes : Nat → io_uring_sqe
  sqe_head : Nat
  sqe_tail : Nat

/-- Source lines 43-53: the completion-ring descriptor, as
`io_uring_sq` above.  `cqes` is the mapped CQE storage. -/
structure io_uring_cq where
  khead : Nat
  ktail : Nat
  kring_mask : Nat
  kring_entries : Nat
  koverflow : Nat
  cqes : Nat → io_uring_cqe

/-- Source lines 55-60: the ring handle bundling both rings, the setup
flags and the instance file descriptor. -/
structure io_uring where
  sq : io_uring_sq
  cq : io_uring_cq
  flags : Nat
  ring_fd : Int

/-- Modelled from the spec: the kernel capability table (`struct
io_uring_probe` of `liburing/io_uring.h`, not under `src/`): `last_op`
and a vector of per-opcode records each bearing a supported bit; `ops`
maps an opcode index to the flags of its record. -/
structure io_uring_probe where
  last_op : Nat
  ops_len : Nat
  ops : Nat → Nat

/-- Modelled from the spec: the supported bit of a probe record
(`IO_URING_OP_SUPPORTED` of `liburing/io_uring.h`, not under
`src/`). -/
def IO_URING_OP_SUPPORTED : Nat := 1

/-- Source lines 89-94: an opcode is supported iff it does not exceed
`last_op` and its record has the supported bit.  Opcode indices are
non-negative, so the C `int op` is modelled as `Nat`. -/
def io_uring_opcode_supported (p : io_uring_probe) (op : Nat) : Bool :=
  if op > p.last_op then false
  else decide ((p.ops op &&& IO_URING_OP_SUPPORTED) ≠ 0)

/-- Modelled from the spec: the `IORING_OP_*` opcode constants are
declared in `liburing/io_uring.h`, which is not under `src/`; the
numeric values follow the kernel ABI enumeration and no claim depends
on them. -/
def IORING_OP_NOP : Nat := 0

/-- Opcode constant, see `IORING_OP_NOP`. -/
def IORING_OP_READV : Nat := 1

/-- Opcode constant, see `IORING_OP_NOP`. -/
def IORING_OP_WRITEV : Nat := 2

/-- Opcode constant, see `IORING_OP_NOP`. -/
def IORING_OP_FSYNC : Nat := 3

/-- Opcode constant, see `IORING_OP_NOP`. -/
def IORING_OP_READ_FIXED : Nat := 4

/-- Opcode constant, see `IORING_OP_NOP`. -/
def IORING_OP_WRITE_FIXED : Nat := 5

/-- Opcode constant, see `IORING_OP_NOP`. -/
def IORING_OP_POLL_ADD : Nat := 6

/-- Opcode constant, see `IORING_OP_NOP`. -/
def IORING_OP_POLL_REMOVE : Nat := 7

/-- Opcode constant, see `IORING_OP_NOP`. -/
def IORING_OP_SENDMSG : Nat := 9

/-- Opcode constant, see `IORING_OP_NOP`. -/
def IORING_OP_RECVMSG : Nat := 10

/-- Opcode constant, see `IORING_OP_NOP`. -/
def IORING_OP_TIMEOUT : Nat := 11

/-- Opcode constant, see `IORING_OP_NOP`. -/
def IORING_OP_TIMEOUT_REMOVE : Nat := 12

/-- Opcode constant, see `IORING_OP_NOP`. -/
def IORING_OP_ACCEPT : Nat := 13

/-- Opcode constant, see `IORING_OP_NOP`. -/
def IORING_OP_ASYNC_CANCEL : Nat := 14

/-- Opcode constant, see `IORING_OP_NOP`. -/
def IORING_OP_LINK_TIMEOUT : Nat := 15

/-- Opcode constant, see `IORING_OP_NOP`. -/
def IORING_OP_CONNECT : Nat := 16

/-- Opcode constant, see `IORING_OP_NOP`. -/
def IORING_OP_FALLOCATE : Nat := 17

/-- Opcode constant, see `IORING_OP_NOP`. -/
def IORING_OP_OPENAT : Nat := 18

/-- Opcode constant, see `IORING_OP_NOP`. -/
def IORING_OP_CLOSE : Nat := 19

/-- Opcode constant, see `IORING_OP_NOP`. -/
def IORING_OP_FILES_UPDATE : Nat := 20

/-- Opcode constant, see `IORING_OP_NOP`. -/
def IORING_OP_STATX : Nat := 21

/-- Opcode constant, see `IORING_OP_NOP`. -/
def IORING_OP_READ : Nat := 22

/-- Opcode constant, see `IORING_OP_NOP`. -/
def IORING_OP_WRITE : Nat := 23

/-- Opcode constant, see `IORING_OP_NOP`. -/
def IORING_OP_FADVISE : Nat := 24

/-- Opcode constant, see `IORING_OP_NOP`. -/
def IORING_OP_MADVISE : Nat := 25

/-- Opcode constant, see `IORING_OP_NOP`. -/
def IORING_OP_SEND : Nat := 26

/-- Opcode constant, see `IORING_OP_NOP`. -/
def IORING_OP_RECV : Nat := 27

/-- Opcode constant, see `IORING_OP_NOP`. -/
def IORING_OP_OPENAT2 : Nat := 28

/-- Opcode constant, see `IORING_OP_NOP`. -/
def IORING_OP_EPOLL_CTL : Nat := 29

/-- Opcode constant, see `IORING_OP_NOP`. -/
def IORING_OP_SPLICE : Nat := 30

/-- Opcode constant, see `IORING_OP_NOP`. -/
def IORING_OP_PROVIDE_BUFFERS : Nat := 31

/-- Opcode constant, see `IORING_OP_NOP`. -/
def IORING_OP_REMOVE_BUFFERS : Nat := 32

/-- Modelled from the spec: `sizeof(struct open_how)` used by
`io_uring_prep_openat2`; the struct is not under `src/`.  The value
(three 64-bit members) does not affect any claim. -/
def sizeof_open_how : Nat := 24

/-- Source lines 387-390: `io_uring_sqe_set_data` stores the opaque
token into `user_data`; the C cast chain `void * → unsigned long →
__u64` is 64-bit to 64-bit, modelled by reduction mod 2^64. -/
def io_uring_sqe_set_data (sqe : io_uring_sqe) (data : Nat) : io_uring_sqe :=
  { sqe with user_data := data % U64 }

/-- Source lines 397-400: `io_uring_cqe_get_data` reads `user_data`
back (the cast `__u64 → uintptr_t → void *` is again 64-bit to
64-bit). -/
def io_uring_cqe_get_data (cqe : io_uring_cqe) : Nat :=
  cqe.user_data

/-- Source lines 407-411: `io_uring_sqe_set_flags` stores the
per-entry flags. -/
def io_uring_sqe_set_flags (sqe : io_uring_sqe) (flags : Nat) : io_uring_sqe :=
  { sqe with flags := flags }

/-- Source lines 422-436: `io_uring_prep_rw`, the uniform preparation:
sets `opcode`, `fd`, `off`, `addr`, `len`; clears the per-entry
`flags`, `ioprio`, the per-opcode flag union (the single write
`sqe->rw_flags = 0`), `user_data` and the `__pad2` padding.  Pointer
arguments are modelled as `Nat` addresses with 0 for NULL. -/
def io_uring_prep_rw (op : Nat) (sqe : io_uring_sqe) (fd : Int)
    (addr : Nat) (len : Nat) (offset : Nat) : io_uring_sqe :=
  { sqe with
    opcode := op
    flags := 0
    ioprio := 0
    fd := fd
    off := offset
    addr := addr
    len := len
    op_flags := 0
    user_data := 0
    pad2 := (0, 0, 0) }

/-- Source lines 448-458: `io_uring_prep_splice`; after the uniform
call it writes `splice_off_in`, `splice_fd_in` and `splice_flags` (the
flag union). -/
def io_uring_prep_splice (sqe : io_uring_sqe) (fd_in : Int) (off_in : Nat)
    (fd_out : Int) (off_out : Nat) (nbytes : Nat)
    (splice_flags : Nat) : io_uring_sqe :=
  let s := io_uring_prep_rw IORING_OP_SPLICE sqe fd_out 0 nbytes off_out
  { s with splice_off_in := off_in, splice_fd_in := fd_in,
           op_flags := splice_flags }

/-- Source lines 468-473: `io_uring_prep_readv`. -/
def io_uring_prep_readv (sqe : io_uring_sqe) (fd : Int) (iovecs : Nat)
    (nr_vecs : Nat) (offset : Nat) : io_uring_sqe :=
  io_uring_prep_rw IORING_OP_READV sqe fd iovecs nr_vecs offset

/-- Source lines 484-490: `io_uring_prep_read_fixed`; the uniform call
plus the `buf_index` write. -/
def io_uring_prep_read_fixed (sqe : io_uring_sqe) (fd : Int) (buf : Nat)
    (nbytes : Nat) (offset : Nat) (buf_index : Nat) : io_uring_sqe :=
  let s := io_uring_prep_rw IORING_OP_READ_FIXED sqe fd buf nbytes offset
  { s with buf_index := buf_index }

/-- Source lines 500-505: `io_uring_prep_writev`. -/
def io_uring_prep_writev (sqe : io_uring_sqe) (fd : Int) (iovecs : Nat)
    (nr_vecs : Nat) (offset : Nat) : io_uring_sqe :=
  io_uring_prep_rw IORING_OP_WRITEV sqe fd iovecs nr_vecs offset

/-- Source lines 516-522: `io_uring_prep_write_fixed`. -/
def io_uring_prep_write_fixed (sqe : io_uring_sqe) (fd : Int) (buf : Nat)
    (nbytes : Nat) (offset : Nat) (buf_index : Nat) : io_uring_sqe :=
  let s := io_uring_prep_rw IORING_OP_WRITE_FIXED sqe fd buf nbytes offset
  { s with buf_index := buf_index }

/-- Source lines 531-536: `io_uring_prep_recvmsg`; `msg_flags` is the
flag union. -/
def io_uring_prep_recvmsg (sqe : io_uring_sqe) (fd : Int) (msg : Nat)
    (flags : Nat) : io_uring_sqe :=
  let s := io_uring_prep_rw IORING_OP_RECVMSG sqe fd msg 1 0
  { s with op_flags := flags }

/-- Source lines 545-550: `io_uring_prep_sendmsg`. -/
def io_uring_prep_sendmsg (sqe : io_uring_sqe) (fd : Int) (msg : Nat)
    (flags : Nat) : io_uring_sqe :=
  let s := io_uring_prep_rw IORING_OP_SENDMSG sqe fd msg 1 0
  { s with op_flags := flags }

/-- Source lines 558-563: `io_uring_prep_poll_add`; `poll_events` is
the flag union. -/
def io_uring_prep_poll_add (sqe : io_uring_sqe) (fd : Int)
    (poll_mask : Nat) : io_uring_sqe :=
  let s := io_uring_prep_rw IORING_OP_POLL_ADD sqe fd 0 0 0
  { s with op_flags := poll_mask }

/-- Source lines 571-575: `io_uring_prep_poll_remove`; the target
user-data travels in `addr`. -/
def io_uring_prep_poll_remove (sqe : io_uring_sqe)
    (user_data : Nat) : io_uring_sqe :=
  io_uring_prep_rw IORING_OP_POLL_REMOVE sqe (-1) user_data 0 0

/-- Source lines 583-588: `io_uring_prep_fsync`. -/
def io_uring_prep_fsync (sqe : io_uring_sqe) (fd : Int)
    (fsync_flags : Nat) : io_uring_sqe :=
  let s := io_uring_prep_rw IORING_OP_FSYNC sqe fd 0 0 0
  { s with op_flags := fsync_flags }

/-- Source lines 594-597: `io_uring_prep_nop`. -/
def io_uring_prep_nop (sqe : io_uring_sqe) : io_uring_sqe :=
  io_uring_prep_rw IORING_OP_NOP sqe (-1) 0 0 0

/-- Source lines 612-618: `io_uring_prep_timeout`: the timespec
pointer in `addr`, length 1, `count` in the offset slot, `-1` as the
no-file descriptor, and the flags in `timeout_flags` (the flag
union). -/
def io_uring_prep_timeout (sqe : io_uring_sqe) (ts : Nat) (count : Nat)
    (flags : Nat) : io_uring_sqe :=
  let s := io_uring_prep_rw IORING_OP_TIMEOUT sqe (-1) ts 1 count
  { s with op_flags := flags }

/-- Source lines 630-636: `io_uring_prep_timeout_remove`; the target
user-data travels in `addr`. -/
def io_uring_prep_timeout_remove (sqe : io_uring_sqe) (user_data : Nat)
    (flags : Nat) : io_uring_sqe :=
  let s := io_uring_prep_rw IORING_OP_TIMEOUT_REMOVE sqe (-1) user_data 0 0
  { s with op_flags := flags }

/-- Source lines 647-654: `io_uring_prep_accept`; the sockaddr-length
pointer travels in the offset slot. -/
def io_uring_prep_accept (sqe : io_uring_sqe) (fd : Int) (addr : Nat)
    (addrlen : Nat) (flags : Nat) : io_uring_sqe :=
  let s := io_uring_prep_rw IORING_OP_ACCEPT sqe fd addr 0 addrlen
  { s with op_flags := flags }

/-- Source lines 664-669: `io_uring_prep_cancel`; the target
user-data travels in `addr`. -/
def io_uring_prep_cancel (sqe : io_uring_sqe) (user_data : Nat)
    (flags : Nat) : io_uring_sqe :=
  let s := io_uring_prep_rw IORING_OP_ASYNC_CANCEL sqe (-1) user_data 0 0
  { s with op_flags := flags }

/-- Source lines 671-677: `io_uring_prep_link_timeout`. -/
def io_uring_prep_link_timeout (sqe : io_uring_sqe) (ts : Nat)
    (flags : Nat) : io_uring_sqe :=
  let s := io_uring_prep_rw IORING_OP_LINK_TIMEOUT sqe (-1) ts 1 0
  { s with op_flags := flags }

/-- Source lines 687-692: `io_uring_prep_connect`; `addrlen` travels
in the offset slot. -/
def io_uring_prep_connect (sqe : io_uring_sqe) (fd : Int) (addr : Nat)
    (addrlen : Nat) : io_uring_sqe :=
  io_uring_prep_rw IORING_OP_CONNECT sqe fd addr 0 addrlen

/-- Source lines 704-709: `io_uring_prep_files_update`. -/
def io_uring_prep_files_update (sqe : io_uring_sqe) (fds : Nat)
    (nr_fds : Nat) (offset : Nat) : io_uring_sqe :=
  io_uring_prep_rw IORING_OP_FILES_UPDATE sqe (-1) fds nr_fds offset

/-- Source lines 720-725: `io_uring_prep_fallocate`; `len` travels in
the addr slot and `mode` in the length slot. -/
def io_uring_prep_fallocate (sqe : io_uring_sqe) (fd : Int) (mode : Nat)
    (offset : Nat) (len : Nat) : io_uring_sqe :=
  io_uring_prep_rw IORING_OP_FALLOCATE sqe fd len mode offset

/-- Source lines 736-741: `io_uring_prep_openat`; `mode` travels in
the length slot and the flags in `open_flags` (the flag union). -/
def io_uring_prep_openat (sqe : io_uring_sqe) (dfd : Int) (path : Nat)
    (flags : Nat) (mode : Nat) : io_uring_sqe :=
  let s := io_uring_prep_rw IORING_OP_OPENAT sqe dfd path mode 0
  { s with op_flags := flags }

/-- Source lines 749-752: `io_uring_prep_close`. -/
def io_uring_prep_close (sqe : io_uring_sqe) (fd : Int) : io_uring_sqe :=
  io_uring_prep_rw IORING_OP_CLOSE sqe fd 0 0 0

/-- Source lines 762-766: `io_uring_prep_read`. -/
def io_uring_prep_read (sqe : io_uring_sqe) (fd : Int) (buf : Nat)
    (nbytes : Nat) (offset : Nat) : io_uring_sqe :=
  io_uring_prep_rw IORING_OP_READ sqe fd buf nbytes offset

/-- Source lines 776-780: `io_uring_prep_write`. -/
def io_uring_prep_write (sqe : io_uring_sqe) (fd : Int) (buf : Nat)
    (nbytes : Nat) (offset : Nat) : io_uring_sqe :=
  io_uring_prep_rw IORING_OP_WRITE sqe fd buf nbytes offset

/-- Source lines 792-799: `io_uring_prep_statx`; `mask` travels in
the length slot, the statx buffer in the offset slot, the flags in
`statx_flags` (the flag union). -/
def io_uring_prep_statx (sqe : io_uring_sqe) (dfd : Int) (path : Nat)
    (flags : Nat) (mask : Nat) (statxbuf : Nat) : io_uring_sqe :=
  let s := io_uring_prep_rw IORING_OP_STATX sqe dfd path mask statxbuf
  { s with op_flags := flags }

/-- Source lines 809-814: `io_uring_prep_fadvise`; the advice goes to
`fadvise_advice` (the flag union). -/
def io_uring_prep_fadvise (sqe : io_uring_sqe) (fd : Int) (offset : Nat)
    (len : Nat) (advice : Nat) : io_uring_sqe :=
  let s := io_uring_prep_rw IORING_OP_FADVISE sqe fd 0 len offset
  { s with op_flags := advice }

/-- Source lines 824-829: `io_uring_prep_madvise`. -/
def io_uring_prep_madvise (sqe : io_uring_sqe) (addr : Nat)
    (length : Nat) (advice : Nat) : io_uring_sqe :=
  let s := io_uring_prep_rw IORING_OP_MADVISE sqe (-1) addr length 0
  { s with op_flags := advice }

/-- Source lines 839-844: `io_uring_prep_send`. -/
def io_uring_prep_send (sqe : io_uring_sqe) (sockfd : Int) (buf : Nat)
    (len : Nat) (flags : Nat) : io_uring_sqe :=
  let s := io_uring_prep_rw IORING_OP_SEND sqe sockfd buf len 0
  { s with op_flags := flags }

/-- Source lines 854-859: `io_uring_prep_recv`. -/
def io_uring_prep_recv (sqe : io_uring_sqe) (sockfd : Int) (buf : Nat)
    (len : Nat) (flags : Nat) : io_uring_sqe :=
  let s := io_uring_prep_rw IORING_OP_RECV sqe sockfd buf len 0
  { s with op_flags := flags }

/-- Source lines 869-874: `io_uring_prep_openat2`; `sizeof(*how)` in
the length slot, the `how` pointer in the offset slot. -/
def io_uring_prep_openat2 (sqe : io_uring_sqe) (dfd : Int)
    (path : Nat) (how : Nat) : io_uring_sqe :=
  io_uring_prep_rw IORING_OP_OPENAT2 sqe dfd path sizeof_open_how how

/-- Source lines 885-890: `io_uring_prep_epoll_ctl`; the epoll op in
the length slot, the target fd in the offset slot. -/
def io_uring_prep_epoll_ctl (sqe : io_uring_sqe) (epfd : Int) (fd : Nat)
    (op : Nat) (ev : Nat) : io_uring_sqe :=
  io_uring_prep_rw IORING_OP_EPOLL_CTL sqe epfd ev op fd

/-- Source lines 901-907: `io_uring_prep_provide_buffers`; the buffer
count travels in the fd slot, the starting bid in the offset slot, and
the group id goes to `buf_group`. -/
def io_uring_prep_provide_buffers (sqe : io_uring_sqe) (addr : Nat)
    (len : Nat) (nr : Int) (bgid : Nat) (bid : Nat) : io_uring_sqe :=
  let s := io_uring_prep_rw IORING_OP_PROVIDE_BUFFERS sqe nr addr len bid
  { s with buf_group := bgid }

/-- Source lines 915-920: `io_uring_prep_remove_buffers`. -/
def io_uring_prep_remove_buffers (sqe : io_uring_sqe) (nr : Int)
    (bgid : Nat) : io_uring_sqe :=
  let s := io_uring_prep_rw IORING_OP_REMOVE_BUFFERS sqe nr 0 0 0
  { s with buf_group := bgid }

/-- Source lines 350-362: `io_uring_cq_advance`.  When `nr` is
nonzero, the release store `*cq->khead + nr` writes the 32-bit sum back
into the shared head; when `nr` is zero the ring is untouched. -/
def io_uring_cq_advance (r : io_uring) (nr : Nat) : io_uring :=
  if nr ≠ 0 then
    { r with cq := { r.cq with khead := (r.cq.khead + nr) % U32 } }
  else r

/-- Source lines 371-376: `io_uring_cqe_seen` retires one entry by
`io_uring_cq_advance(ring, 1)` when the CQE pointer is non-null; a
null pointer leaves the ring untouched. -/
def io_uring_cqe_seen (r : io_uring) (cqe : Option io_uring_cqe) : io_uring :=
  match cqe with
  | some _ => io_uring_cq_advance r 1
  | none => r

/-- Source lines 948-951: `io_uring_cq_ready` is the acquire load of
`cq.ktail` minus the current `cq.khead`, a 32-bit unsigned
subtraction. -/
def io_uring_cq_ready (r : io_uring) : Nat :=
  (U32 + r.cq.ktail % U32 - r.cq.khead % U32) % U32

/-- The number of entries visible from an arbitrary head cursor
(`io_uring_cq_ready` is this at `cq.khead`); the fuel of the loop
embeddings below. -/
def cq_dist (r : io_uring) (head : Nat) : Nat :=
  (U32 + r.cq.ktail % U32 - head % U32) % U32

/-- The loop condition of the `io_uring_for_each_cqe` macro (source
lines 333-341): with cursor `head`, the yielded CQE is
`&cq.cqes[head & cq.kring_mask]` when `head` differs from the acquire
load of `cq.ktail`, and null when they are equal (all compared and
indexed as 32-bit values). -/
def cq_visible (r : io_uring) (head : Nat) : Option io_uring_cqe :=
  if head % U32 = r.cq.ktail % U32 then none
  else some (r.cq.cqes ((head % U32) &&& (r.cq.kring_mask % U32)))

/-- The body of the `io_uring_for_each_cqe` macro as a generator: from
cursor `head` collect each yielded CQE, incrementing `head` by one,
until the yield is null.  The fuel argument only makes the recursion
structural; `cq_dist` fuel is enough (`forEachLoop_spec` below). -/
def forEachLoop (r : io_uring) : Nat → Nat → List io_uring_cqe
  | 0, _ => []
  | fuel + 1, head =>
    match cq_visible r head with
    | none => []
    | some c => c :: forEachLoop r fuel (head + 1)

/-- Source lines 333-341: the list of CQEs the
`io_uring_for_each_cqe` macro yields, starting at `head = *cq.khead`
against the tail. -/
def io_uring_for_each_cqe_list (r : io_uring) : List io_uring_cqe :=
  forEachLoop r (io_uring_cq_ready r) r.cq.khead

/-- The outcome of `__io_uring_peek_cqe` and of `__io_uring_get_cqe`:
the returned error code, the value stored through `cqe_ptr`, and the
ring after the call. -/
structure PeekResult where
  err : Int
  cqe : Option io_uring_cqe
  ring : io_uring

/-- The `do { ... } while (1)` loop of `__io_uring_peek_cqe` (source
lines 963-977).  Each iteration takes the first yield of
`io_uring_for_each_cqe` (the macro with an immediate `break`); a CQE
bearing the reserved timeout user-data records its negative `res` (if
any) in `err`, is retired by `io_uring_cq_advance(ring, 1)`, and the
loop continues unless `err` became nonzero, in which case the CQE
pointer is nulled and the loop exits.  Fuel makes the recursion
structural; each continue retires one visible entry, so
`io_uring_cq_ready` fuel is enough (`cq_ready_advance` below). -/
def peekLoop : Nat → io_uring → PeekResult
  | 0, r => ⟨0, none, r⟩
  | fuel + 1, r =>
    match cq_visible r r.cq.khead with
    | none => ⟨0, none, r⟩
    | some c =>
      if c.user_data = LIBURING_UDATA_TIMEOUT then
        let err : Int := if c.res < 0 then c.res else 0
        let r' := io_uring_cq_advance r 1
        if err = 0 then peekLoop fuel r'
        else ⟨err, none, r'⟩
      else ⟨0, some c, r⟩

/-- Source lines 957-981: `__io_uring_peek_cqe`. -/
def __io_uring_peek_cqe (r : io_uring) : PeekResult :=
  peekLoop (io_uring_cq_ready r) r

/-- Source lines 991-1002: `io_uring_wait_cqe_nr` first peeks; when
the peek produced a nonzero error or a CQE it returns that result;
otherwise it calls `__io_uring_get_cqe(ring, cqe_ptr, 0, wait_nr,
NULL)`.  `__io_uring_get_cqe` itself is extern (defined in `queue.c`,
not under `src/`), so it is a parameter `get_cqe` taking the ring, the
submit count, the wait count and the signal-mask pointer (0 for
NULL). -/
def io_uring_wait_cqe_nr (get_cqe : io_uring → Nat → Nat → Nat → PeekResult)
    (r : io_uring) (wait_nr : Nat) : PeekResult :=
  let p := __io_uring_peek_cqe r
  if p.err ≠ 0 ∨ p.cqe.isSome = true then p
  else get_cqe p.ring 0 wait_nr 0

/-- Source lines 1010-1014: `io_uring_peek_cqe` is
`io_uring_wait_cqe_nr` with `wait_nr = 0`. -/
def io_uring_peek_cqe (get_cqe : io_uring → Nat → Nat → Nat → PeekResult)
    (r : io_uring) : PeekResult :=
  io_uring_wait_cqe_nr get_cqe r 0

/-- Source lines 1022-1026: `io_uring_wait_cqe` is
`io_uring_wait_cqe_nr` with `wait_nr = 1`. -/
def io_uring_wait_cqe (get_cqe : io_uring → Nat → Nat → Nat → PeekResult)
    (r : io_uring) : PeekResult :=
  io_uring_wait_cqe_nr get_cqe r 1

/-- Iterated advance-by-one, used to chain the head movements
`__io_uring_peek_cqe` performs while it retires timeout sentinels. -/
def cqAdvanceIter : Nat → io_uring → io_uring
  | 0, r => r
  | k + 1, r => cqAdvanceIter k (io_uring_cq_advance r 1)

/-- An all-zero submission entry, used as a concrete starting state. -/
def sqe0 : io_uring_sqe :=
  { opcode := 0, flags := 0, ioprio := 0, fd := 0, off := 0, addr := 0,
    len := 0, op_flags := 0, user_data := 0, buf_index := 0, buf_group := 0,
    splice_fd_in := 0, splice_off_in := 0, pad2 := (0, 0, 0) }

/-- A concrete submission-ring descriptor with 8 entries. -/
def sq0 : io_uring_sq :=
  { khead := 0, ktail := 0, kring_mask := 7, kring_entries := 8, kflags := 0,
    kdropped := 0, array := fun _ => 0, sqes := fun _ => sqe0,
    sqe_head := 0, sqe_tail := 0 }

/-- A concrete ring whose completion ring is empty (head = tail). -/
def emptyRing : io_uring :=
  { sq := sq0,
    cq := { khead := 0, ktail := 0, kring_mask := 7, kring_entries := 8,
            koverflow := 0, cqes := fun _ => ⟨0, 0, 0⟩ },
    flags := 0, ring_fd := 3 }

/-- A concrete ring with two posted completions: an ordinary one with
user-data 66 followed by a timeout sentinel. -/
def sampleRing : io_uring :=
  { emptyRing with
    cq := { emptyRing.cq with
      ktail := 2,
      cqes := fun i =>
        if i = 0 then ⟨66, 5, 0⟩
        else if i = 1 then ⟨LIBURING_UDATA_TIMEOUT, -5, 0⟩
        else ⟨0, 0, 0⟩ } }

/-- A concrete ring whose sole posted completion is a timeout sentinel
with negative result -5. -/
def sentinelRing : io_uring :=
  { emptyRing with
    cq := { emptyRing.cq with
      ktail := 1,
      cqes := fun i =>
        if i = 0 then ⟨LIBURING_UDATA_TIMEOUT, -5, 0⟩ else ⟨0, 0, 0⟩ } }

/-- A concrete stand-in for the extern `__io_uring_get_cqe`. -/
def g0 : io_uring → Nat → Nat → Nat → PeekResult :=
  fun r _ _ _ => ⟨0, none, r⟩

/-- A concrete probe: `last_op = 2`, only opcode 1 supported. -/
def probeEx : io_uring_probe :=
  { last_op := 2, ops_len := 3, ops := fun i => if i = 1 then 1 else 0 }

/-! ## Helper lemmas on the completion-ring arithmetic and loops -/

theorem cqAdvanceIter_zero (r : io_uring) : cqAdvanceIter 0 r = r := rfl

theorem cqAdvanceIter_succ (k : Nat) (r : io_uring) :
    cqAdvanceIter (k + 1) r = cqAdvanceIter k (io_uring_cq_advance r 1) := rfl

theorem cq_advance_one (r : io_uring) :
    io_uring_cq_advance r 1 =
      { r with cq := { r.cq with khead := (r.cq.khead + 1) % U32 } } := rfl

theorem cq_ready_eq_dist (r : io_uring) :
    io_uring_cq_ready r = cq_dist r r.cq.khead := rfl

theorem cq_dist_eq_zero_iff (r : io_uring) (head : Nat) :
    cq_dist r head = 0 ↔ head % U32 = r.cq.ktail % U32 := by
  simp only [cq_dist, U32]
  omega

theorem cq_dist_succ (r : io_uring) (head : Nat) (h : cq_dist r head ≠ 0) :
    cq_dist r (head + 1) = cq_dist r head - 1 := by
  simp only [cq_dist, U32] at h ⊢
  omega

theorem cq_visible_eq_none_iff (r : io_uring) (head : Nat) :
    cq_visible r head = none ↔ head % U32 = r.cq.ktail % U32 := by
  unfold cq_visible
  by_cases h : head % U32 = r.cq.ktail % U32 <;> simp [h]

theorem cq_visible_of_dist_ne_zero (r : io_uring) (head : Nat)
    (h : cq_dist r head ≠ 0) :
    cq_visible r head = some (r.cq.cqes ((head % U32) &&& (r.cq.kring_mask % U32))) := by
  have hne : ¬ head % U32 = r.cq.ktail % U32 :=
    fun hc => h ((cq_dist_eq_zero_iff r head).mpr hc)
  unfold cq_visible
  rw [if_neg hne]

theorem cq_ready_advance (r : io_uring) (h : io_uring_cq_ready r ≠ 0) :
    io_uring_cq_ready (io_uring_cq_advance r 1) = io_uring_cq_ready r - 1 := by
  rw [cq_advance_one]
  simp only [io_uring_cq_ready, U32] at h ⊢
  omega

theorem forEachLoop_spec (r : io_uring) (fuel : Nat) :
    ∀ head : Nat, cq_dist r head ≤ fuel →
      forEachLoop r fuel head =
        (List.range (cq_dist r head)).map
          (fun i => r.cq.cqes (((head + i) % U32) &&& (r.cq.kring_mask % U32))) := by
  induction fuel with
  | zero =>
    intro head h
    have h0 : cq_dist r head = 0 := Nat.le_zero.mp h
    simp [forEachLoop, h0]
  | succ fuel ih =>
    intro head h
    by_cases hv : head % U32 = r.cq.ktail % U32
    · have h0 : cq_dist r head = 0 := (cq_dist_eq_zero_iff r head).mpr hv
      have hn : cq_visible r head = none := (cq_visible_eq_none_iff r head).mpr hv
      simp [forEachLoop, hn, h0]
    · have h0 : cq_dist r head ≠ 0 := fun hc => hv ((cq_dist_eq_zero_iff r head).mp hc)
      have hs := cq_visible_of_dist_ne_zero r head h0
      have hd : cq_dist r (head + 1) = cq_dist r head - 1 := cq_dist_succ r head h0
      have hle : cq_dist r (head + 1) ≤ fuel := by omega
      have := ih (head + 1) hle
      simp only [forEachLoop, hs]
      rw [this, hd]
      obtain ⟨d, hdd⟩ : ∃ d, cq_dist r head = d + 1 :=
        ⟨cq_dist r head - 1, by omega⟩
      rw [hdd]
      simp only [Nat.add_sub_cancel, List.range_succ_eq_map, List.map_cons,
        List.map_map, Nat.add_zero, List.cons.injEq]
      refine ⟨trivial, ?_⟩
      apply List.map_congr_left
      intro i _
      have hidx : head + 1 + i = head + (i + 1) := by omega
      simp [Function.comp, hidx]

theorem io_uring_for_each_cqe_list_eq (r : io_uring) :
    io_uring_for_each_cqe_list r =
      (List.range (io_uring_cq_ready r)).map
        (fun i => r.cq.cqes (((r.cq.khead + i) % U32) &&& (r.cq.kring_mask % U32))) := by
  unfold io_uring_for_each_cqe_list
  rw [cq_ready_eq_dist]
  exact forEachLoop_spec r (cq_dist r r.cq.khead) r.cq.khead (Nat.le_refl _)

/-- Full characterization of the `__io_uring_peek_cqe` loop at fuel
equal to the number of visible entries: some count `k` of leading
visible CQEs, all bearing the reserved timeout user-data, is retired
by `k` advance-by-one steps; a returned CQE never bears the sentinel;
a negative return is the negative `res` of the last retired sentinel,
with the CQE pointer nulled. -/
theorem peekLoop_spec (fuel : Nat) :
    ∀ r : io_uring, io_uring_cq_ready r = fuel →
      ∃ k, k ≤ fuel ∧
        (peekLoop fuel r).ring = cqAdvanceIter k r ∧
        (∀ i, i < k → ∃ ci,
          cq_visible (cqAdvanceIter i r) (cqAdvanceIter i r).cq.khead = some ci ∧
          ci.user_data = LIBURING_UDATA_TIMEOUT ∧
          (ci.res < 0 → i = k - 1 ∧ (peekLoop fuel r).err = ci.res ∧
            (peekLoop fuel r).cqe = none)) ∧
        (∀ c0, (peekLoop fuel r).cqe = some c0 →
          c0.user_data ≠ LIBURING_UDATA_TIMEOUT) ∧
        ((peekLoop fuel r).err < 0 →
          (peekLoop fuel r).cqe = none ∧ 0 < k ∧
          ∃ cl, cq_visible (cqAdvanceIter (k - 1) r)
              (cqAdvanceIter (k - 1) r).cq.khead = some cl ∧
            cl.user_data = LIBURING_UDATA_TIMEOUT ∧ cl.res < 0 ∧
            (peekLoop fuel r).err = cl.res) := by
  induction fuel with
  | zero =>
    intro r _
    refine ⟨0, Nat.le_refl 0, rfl, ?_, ?_, ?_⟩ <;> simp [peekLoop]
  | succ fuel ih =>
    intro r hready
    have h0 : io_uring_cq_ready r ≠ 0 := by omega
    have hd0 : cq_dist r r.cq.khead ≠ 0 := by
      rw [← cq_ready_eq_dist]; exact h0
    set c := r.cq.cqes ((r.cq.khead % U32) &&& (r.cq.kring_mask % U32)) with hc
    have hv : cq_visible r r.cq.khead = some c :=
      cq_visible_of_dist_ne_zero r r.cq.khead hd0
    by_cases hud : c.user_data = LIBURING_UDATA_TIMEOUT
    · by_cases hres : c.res < 0
      · -- a sentinel with negative result: record the error, retire, stop
        have hne0 : ¬ (c.res = 0) := by omega
        have hred : peekLoop (fuel + 1) r =
            ⟨c.res, none, io_uring_cq_advance r 1⟩ := by
          simp [peekLoop, hv, hud, hres, hne0]
        refine ⟨1, Nat.succ_le_succ (Nat.zero_le _), ?_, ?_, ?_, ?_⟩
        · rw [hred]; rfl
        · intro i hi
          have hi0 : i = 0 := by omega
          subst hi0
          exact ⟨c, hv, hud, fun _ => ⟨rfl, by rw [hred], by rw [hred]⟩⟩
        · intro c0 hc0
          rw [hred] at hc0
          exact absurd hc0 (by simp)
        · intro _
          exact ⟨by rw [hred], Nat.one_pos, c, hv, hud, hres, by rw [hred]⟩
      · -- a sentinel with non-negative result: retire silently and loop
        have hred : peekLoop (fuel + 1) r =
            peekLoop fuel (io_uring_cq_advance r 1) := by
          simp [peekLoop, hv, hud, hres]
        have hready' : io_uring_cq_ready (io_uring_cq_advance r 1) = fuel := by
          rw [cq_ready_advance r h0]; omega
        obtain ⟨k', hk'le, hring, hB, hC, hD⟩ :=
          ih (io_uring_cq_advance r 1) hready'
        refine ⟨k' + 1, by omega, ?_, ?_, ?_, ?_⟩
        · rw [hred, hring, cqAdvanceIter_succ]
        · intro i hi
          match i, hi with
          | 0, _ =>
            exact ⟨c, hv, hud, fun hlt => absurd hlt hres⟩
          | j + 1, hj =>
            have hjk : j < k' := by omega
            obtain ⟨cj, hvj, hudj, himp⟩ := hB j hjk
            rw [cqAdvanceIter_succ]
            refine ⟨cj, hvj, hudj, fun hlt => ?_⟩
            obtain ⟨hj1, hj2, hj3⟩ := himp hlt
            exact ⟨by omega, by rw [hred]; exact hj2, by rw [hred]; exact hj3⟩
        · intro c0 hc0
          rw [hred] at hc0
          exact hC c0 hc0
        · intro herr
          rw [hred] at herr
          obtain ⟨hnone, hkpos, cl, hvl, hudl, hresl, herreq⟩ := hD herr
          have hrw : cqAdvanceIter (k' + 1 - 1) r =
              cqAdvanceIter (k' - 1) (io_uring_cq_advance r 1) := by
            have hk : k' + 1 - 1 = (k' - 1) + 1 := by omega
            rw [hk, cqAdvanceIter_succ]
          rw [hred]
          exact ⟨hnone, by omega, cl, by rw [hrw]; exact hvl, hudl, hresl, herreq⟩
    · -- an ordinary completion: return it without touching the ring
      have hred : peekLoop (fuel + 1) r = ⟨0, some c, r⟩ := by
        simp [peekLoop, hv, hud]
      refine ⟨0, Nat.zero_le _, by rw [hred]; rfl, ?_, ?_, ?_⟩
      · intro i hi
        exact absurd hi (Nat.not_lt_zero i)
      · intro c0 hc0
        rw [hred] at hc0
        simp only [Option.some.injEq] at hc0
        rw [hc0] at hud
        exact hud
      · intro herr
        rw [hred] at herr
        exact absurd herr (by norm_num)

/-! ## Claims -/

/-- C1: for every completion-ring state, `__io_uring_peek_cqe` never
returns through the CQE pointer a CQE whose `user_data` equals the
reserved timeout sentinel `LIBURING_UDATA_TIMEOUT`: some count `k` of
leading visible CQEs, each bearing the sentinel, is retired by
advancing the CQ head one step at a time; a retired sentinel whose
`res` is negative is the last one retired, the function stopping and
returning that negative `res` with the CQE pointer set to null; a
retired sentinel with non-negative `res` is continued past to the next
visible CQE. -/
theorem peek_cqe_never_surfaces_timeout_sentinel (r : io_uring) :
    ∃ k, k ≤ io_uring_cq_ready r ∧
      (__io_uring_peek_cqe r).ring = cqAdvanceIter k r ∧
      (∀ i, i < k → ∃ ci,
        cq_visible (cqAdvanceIter i r) (cqAdvanceIter i r).cq.khead = some ci ∧
        ci.user_data = LIBURING_UDATA_TIMEOUT ∧
        (ci.res < 0 → i = k - 1 ∧ (__io_uring_peek_cqe r).err = ci.res ∧
          (__io_uring_peek_cqe r).cqe = none)) ∧
      (∀ c0, (__io_uring_peek_cqe r).cqe = some c0 →
        c0.user_data ≠ LIBURING_UDATA_TIMEOUT) ∧
      ((__io_uring_peek_cqe r).err < 0 →
        (__io_uring_peek_cqe r).cqe = none ∧ 0 < k ∧
        ∃ cl, cq_visible (cqAdvanceIter (k - 1) r)
            (cqAdvanceIter (k - 1) r).cq.khead = some cl ∧
          cl.user_data = LIBURING_UDATA_TIMEOUT ∧ cl.res < 0 ∧
          (__io_uring_peek_cqe r).err = cl.res) :=
  peekLoop_spec (io_uring_cq_ready r) r rfl

/-- C2: `io_uring_opcode_supported p op` is true exactly when `op` does
not exceed `p.last_op` and the `IO_URING_OP_SUPPORTED` bit is set in
the flags of the probe record for `op`; in particular it is false for
every opcode index above `last_op`. -/
theorem opcode_supported_iff_le_last_op (p : io_uring_probe) (op : Nat) :
    (io_uring_opcode_supported p op = true ↔
      op ≤ p.last_op ∧ p.ops op &&& IO_URING_OP_SUPPORTED ≠ 0) ∧
    (p.last_op < op → io_uring_opcode_supported p op = false) := by
  unfold io_uring_opcode_supported
  by_cases h : op > p.last_op
  · rw [if_pos h]
    constructor
    · simp only [Bool.false_eq_true, false_iff]
      intro hand
      omega
    · intro _
      rfl
  · rw [if_neg h]
    constructor
    · simp only [decide_eq_true_eq]
      constructor
      · intro hb
        exact ⟨Nat.le_of_not_lt h, hb⟩
      · intro hand
        exact hand.2
    · intro hlt
      exact absurd hlt h

/-- Witness for C2 at a concrete probe: opcode 5 exceeds
`last_op = 2`, so it is reported unsupported. -/
theorem opcode_supported_witness :
    io_uring_opcode_supported probeEx 5 = false :=
  (opcode_supported_iff_le_last_op probeEx 5).2 (by decide)

/-- C3 counterexample: the splice preparation wrapper does not write
only its flag field: starting from the all-zero SQE, after
`io_uring_prep_splice` with `fd_in = 3` the field `splice_fd_in` is 3,
whereas the uniform preparation call that the wrapper performs
(`io_uring_prep_rw(IORING_OP_SPLICE, sqe, fd_out, NULL, nbytes,
off_out)`) leaves it 0; so a field other than the flag field does not
stay as the uniform function left it. -/
theorem prep_splice_writes_more_than_flag_field :
    (io_uring_prep_splice sqe0 3 7 4 9 16 2).splice_fd_in = 3 ∧
    (io_uring_prep_rw IORING_OP_SPLICE sqe0 4 0 16 9).splice_fd_in = 0 ∧
    (io_uring_prep_splice sqe0 3 7 4 9 16 2).splice_fd_in ≠
      (io_uring_prep_rw IORING_OP_SPLICE sqe0 4 0 16 9).splice_fd_in := by
  refine ⟨rfl, rfl, ?_⟩
  decide

/-- C3 amended: every opcode preparation wrapper first performs the
uniform preparation `io_uring_prep_rw` and then writes only that
opcode's payload fields — for most opcodes one flag field, and
additionally the buffer index for fixed read/write, the splice
auxiliary fields for splice, and the buffer-group id for
provide/remove buffers — leaving every other SQE field exactly as the
uniform function left it (each equation exhibits the wrapper as the
uniform result updated only at those fields). -/
theorem prep_wrappers_frame :
    (∀ sqe fd_in off_in fd_out off_out nbytes sf,
      io_uring_prep_splice sqe fd_in off_in fd_out off_out nbytes sf =
        { io_uring_prep_rw IORING_OP_SPLICE sqe fd_out 0 nbytes off_out with
          splice_off_in := off_in, splice_fd_in := fd_in, op_flags := sf }) ∧
    (∀ sqe fd iovecs nr_vecs offset,
      io_uring_prep_readv sqe fd iovecs nr_vecs offset =
        io_uring_prep_rw IORING_OP_READV sqe fd iovecs nr_vecs offset) ∧
    (∀ sqe fd buf nbytes offset bi,
      io_uring_prep_read_fixed sqe fd buf nbytes offset bi =
        { io_uring_prep_rw IORING_OP_READ_FIXED sqe fd buf nbytes offset with
          buf_index := bi }) ∧
    (∀ sqe fd iovecs nr_vecs offset,
      io_uring_prep_writev sqe fd iovecs nr_vecs offset =
        io_uring_prep_rw IORING_OP_WRITEV sqe fd iovecs nr_vecs offset) ∧
    (∀ sqe fd buf nbytes offset bi,
      io_uring_prep_write_fixed sqe fd buf nbytes offset bi =
        { io_uring_prep_rw IORING_OP_WRITE_FIXED sqe fd buf nbytes offset with
          buf_index := bi }) ∧
    (∀ sqe fd msg fl,
      io_uring_prep_recvmsg sqe fd msg fl =
        { io_uring_prep_rw IORING_OP_RECVMSG sqe fd msg 1 0 with
          op_flags := fl }) ∧
    (∀ sqe fd msg fl,
      io_uring_prep_sendmsg sqe fd msg fl =
        { io_uring_prep_rw IORING_OP_SENDMSG sqe fd msg 1 0 with
          op_flags := fl }) ∧
    (∀ sqe fd poll_mask,
      io_uring_prep_poll_add sqe fd poll_mask =
        { io_uring_prep_rw IORING_OP_POLL_ADD sqe fd 0 0 0 with
          op_flags := poll_mask }) ∧
    (∀ sqe user_data,
      io_uring_prep_poll_remove sqe user_data =
        io_uring_prep_rw IORING_OP_POLL_REMOVE sqe (-1) user_data 0 0) ∧
    (∀ sqe fd fl,
      io_uring_prep_fsync sqe fd fl =
        { io_uring_prep_rw IORING_OP_FSYNC sqe fd 0 0 0 with
          op_flags := fl }) ∧
    (∀ sqe,
      io_uring_prep_nop sqe =
        io_uring_prep_rw IORING_OP_NOP sqe (-1) 0 0 0) ∧
    (∀ sqe ts count fl,
      io_uring_prep_timeout sqe ts count fl =
        { io_uring_prep_rw IORING_OP_TIMEOUT sqe (-1) ts 1 count with
          op_flags := fl }) ∧
    (∀ sqe user_data fl,
      io_uring_prep_timeout_remove sqe user_data fl =
        { io_uring_prep_rw IORING_OP_TIMEOUT_REMOVE sqe (-1) user_data 0 0 with
          op_flags := fl }) ∧
    (∀ sqe fd addr addrlen fl,
      io_uring_prep_accept sqe fd addr addrlen fl =
        { io_uring_prep_rw IORING_OP_ACCEPT sqe fd addr 0 addrlen with
          op_flags := fl }) ∧
    (∀ sqe user_data fl,
      io_uring_prep_cancel sqe user_data fl =
        { io_uring_prep_rw IORING_OP_ASYNC_CANCEL sqe (-1) user_data 0 0 with
          op_flags := fl }) ∧
    (∀ sqe ts fl,
      io_uring_prep_link_timeout sqe ts fl =
        { io_uring_prep_rw IORING_OP_LINK_TIMEOUT sqe (-1) ts 1 0 with
          op_flags := fl }) ∧
    (∀ sqe fd addr addrlen,
      io_uring_prep_connect sqe fd addr addrlen =
        io_uring_prep_rw IORING_OP_CONNECT sqe fd addr 0 addrlen) ∧
    (∀ sqe fds nr_fds offset,
      io_uring_prep_files_update sqe fds nr_fds offset =
        io_uring_prep_rw IORING_OP_FILES_UPDATE sqe (-1) fds nr_fds offset) ∧
    (∀ sqe fd mode offset len,
      io_uring_prep_fallocate sqe fd mode offset len =
        io_uring_prep_rw IORING_OP_FALLOCATE sqe fd len mode offset) ∧
    (∀ sqe dfd path fl mode,
      io_uring_prep_openat sqe dfd path fl mode =
        { io_uring_prep_rw IORING_OP_OPENAT sqe dfd path mode 0 with
          op_flags := fl }) ∧
    (∀ sqe fd,
      io_uring_prep_close sqe fd =
        io_uring_prep_rw IORING_OP_CLOSE sqe fd 0 0 0) ∧
    (∀ sqe fd buf nbytes offset,
      io_uring_prep_read sqe fd buf nbytes offset =
        io_uring_prep_rw IORING_OP_READ sqe fd buf nbytes offset) ∧
    (∀ sqe fd buf nbytes offset,
      io_uring_prep_write sqe fd buf nbytes offset =
        io_uring_prep_rw IORING_OP_WRITE sqe fd buf nbytes offset) ∧
    (∀ sqe dfd path fl mask statxbuf,
      io_uring_prep_statx sqe dfd path fl mask statxbuf =
        { io_uring_prep_rw IORING_OP_STATX sqe dfd path mask statxbuf with
          op_flags := fl }) ∧
    (∀ sqe fd offset len advice,
      io_uring_prep_fadvise sqe fd offset len advice =
        { io_uring_prep_rw IORING_OP_FADVISE sqe fd 0 len offset with
          op_flags := advice }) ∧
    (∀ sqe addr length advice,
      io_uring_prep_madvise sqe addr length advice =
        { io_uring_prep_rw IORING_OP_MADVISE sqe (-1) addr length 0 with
          op_flags := advice }) ∧
    (∀ sqe sockfd buf len fl,
      io_uring_prep_send sqe sockfd buf len fl =
        { io_uring_prep_rw IORING_OP_SEND sqe sockfd buf len 0 with
          op_flags := fl }) ∧
    (∀ sqe sockfd buf len fl,
      io_uring_prep_recv sqe sockfd buf len fl =
        { io_uring_prep_rw IORING_OP_RECV sqe sockfd buf len 0 with
          op_flags := fl }) ∧
    (∀ sqe dfd path how,
      io_uring_prep_openat2 sqe dfd path how =
        io_uring_prep_rw IORING_OP_OPENAT2 sqe dfd path sizeof_open_how how) ∧
    (∀ sqe epfd fd op ev,
      io_uring_prep_epoll_ctl sqe epfd fd op ev =
        io_uring_prep_rw IORING_OP_EPOLL_CTL sqe epfd ev op fd) ∧
    (∀ sqe addr len nr bgid bid,
      io_uring_prep_provide_buffers sqe addr len nr bgid bid =
        { io_uring_prep_rw IORING_OP_PROVIDE_BUFFERS sqe nr addr len bid with
          buf_group := bgid }) ∧
    (∀ sqe nr bgid,
      io_uring_prep_remove_buffers sqe nr bgid =
        { io_uring_prep_rw IORING_OP_REMOVE_BUFFERS sqe nr 0 0 0 with
          buf_group := bgid }) := by
  repeat' apply And.intro
  all_goals intros
  all_goals rfl

/-- C4: `io_uring_wait_cqe_nr` first performs the peek step; when the
peek produced a nonzero error or a CQE, that result is returned
unchanged for every possible `__io_uring_get_cqe` (so the helper is
not invoked); otherwise the result is exactly the helper applied to
the post-peek ring with `submit = 0`, the requested `wait_nr` and a
null signal mask. -/
theorem wait_cqe_nr_peeks_then_enters
    (g : io_uring → Nat → Nat → Nat → PeekResult)
    (r : io_uring) (wait_nr : Nat) :
    (((__io_uring_peek_cqe r).err ≠ 0 ∨
        (__io_uring_peek_cqe r).cqe.isSome = true) →
      io_uring_wait_cqe_nr g r wait_nr = __io_uring_peek_cqe r) ∧
    ((__io_uring_peek_cqe r).err = 0 ∧ (__io_uring_peek_cqe r).cqe = none →
      io_uring_wait_cqe_nr g r wait_nr =
        g (__io_uring_peek_cqe r).ring 0 wait_nr 0) := by
  constructor
  · intro h
    unfold io_uring_wait_cqe_nr
    rw [if_pos h]
  · intro h
    unfold io_uring_wait_cqe_nr
    rw [if_neg]
    intro hor
    rcases hor with he | hs
    · exact he h.1
    · rw [h.2] at hs
      exact absurd hs (by simp)

/-- Witness for C4 on the concrete empty ring: the peek finds nothing
and returns no error, so the wait enters the helper with `submit = 0`,
the requested count 5 and the null mask. -/
theorem wait_cqe_nr_witness :
    io_uring_wait_cqe_nr g0 emptyRing 5 =
      g0 (__io_uring_peek_cqe emptyRing).ring 0 5 0 :=
  (wait_cqe_nr_peeks_then_enters g0 emptyRing 5).2 ⟨rfl, rfl⟩

/-- C5: against a snapshot of the tail, the iteration primitive yields
exactly the CQEs at `cqes[(head + i) & ring_mask]` for `i` running
from 0 below `tail - head`, the cursor starting at `cq.head` and
incrementing by one per iteration; it yields nothing exactly when
`head == tail`. -/
theorem for_each_cqe_yields_window (r : io_uring) :
    (io_uring_for_each_cqe_list r).length = io_uring_cq_ready r ∧
    (∀ i, i < io_uring_cq_ready r →
      (io_uring_for_each_cqe_list r).get? i =
        some (r.cq.cqes (((r.cq.khead + i) % U32) &&&
          (r.cq.kring_mask % U32)))) ∧
    (io_uring_for_each_cqe_list r = [] ↔
      r.cq.khead % U32 = r.cq.ktail % U32) := by
  rw [io_uring_for_each_cqe_list_eq]
  refine ⟨by simp, ?_, ?_⟩
  · intro i hi
    rw [List.get?_map, List.get?_range hi]
    rfl
  · rw [List.map_eq_nil_iff, List.range_eq_nil, cq_ready_eq_dist,
      cq_dist_eq_zero_iff]

/-- C6: with a non-null CQE pointer, `io_uring_cqe_seen` advances the
CQ head by exactly one (the release store of `cq.head + 1` performed
by `io_uring_cq_advance` with count 1) and changes nothing else in the
ring; with a null CQE pointer the ring is unchanged. -/
theorem cqe_seen_advances_head_by_one (r : io_uring) (c : io_uring_cqe) :
    (io_uring_cqe_seen r (some c)).cq.khead = (r.cq.khead + 1) % U32 ∧
    (io_uring_cqe_seen r (some c)).cq.ktail = r.cq.ktail ∧
    (io_uring_cqe_seen r (some c)).cq.kring_mask = r.cq.kring_mask ∧
    (io_uring_cqe_seen r (some c)).cq.kring_entries = r.cq.kring_entries ∧
    (io_uring_cqe_seen r (some c)).cq.koverflow = r.cq.koverflow ∧
    (io_uring_cqe_seen r (some c)).cq.cqes = r.cq.cqes ∧
    (io_uring_cqe_seen r (some c)).sq = r.sq ∧
    (io_uring_cqe_seen r (some c)).flags = r.flags ∧
    (io_uring_cqe_seen r (some c)).ring_fd = r.ring_fd ∧
    io_uring_cqe_seen r none = r :=
  ⟨rfl, rfl, rfl, rfl, rfl, rfl, rfl, rfl, rfl, rfl⟩

/-- C7: `io_uring_cq_ready` returns the acquire load of `cq.tail`
minus `cq.head` as a 32-bit unsigned subtraction (stated by the first
equation) and this is the number of CQEs visible to the iteration
primitive (second equation); being a pure function of the ring, it
modifies nothing. -/
theorem cq_ready_is_tail_minus_head (r : io_uring) :
    io_uring_cq_ready r =
      (U32 + r.cq.ktail % U32 - r.cq.khead % U32) % U32 ∧
    io_uring_cq_ready r = (io_uring_for_each_cqe_list r).length := by
  refine ⟨rfl, ?_⟩
  rw [io_uring_for_each_cqe_list_eq]
  simp

/-- C8: `io_uring_prep_timeout` emits the timeout payload: the
timespec pointer in `addr`, the completion count in the offset field,
the flags in `timeout_flags`, with opcode `IORING_OP_TIMEOUT` and the
no-file sentinel `-1` as fd. -/
theorem prep_timeout_payload (sqe : io_uring_sqe) (ts count fl : Nat) :
    (io_uring_prep_timeout sqe ts count fl).addr = ts ∧
    (io_uring_prep_timeout sqe ts count fl).off = count ∧
    (io_uring_prep_timeout sqe ts count fl).timeout_flags = fl ∧
    (io_uring_prep_timeout sqe ts count fl).opcode = IORING_OP_TIMEOUT ∧
    (io_uring_prep_timeout sqe ts count fl).fd = -1 :=
  ⟨rfl, rfl, rfl, rfl, rfl⟩

/-- C9: reading user data from a CQE whose `user_data` equals the
value stored by `io_uring_sqe_set_data sqe d` gives back `d`: the
setter followed by the getter is the identity on 64-bit tokens. -/
theorem cqe_get_data_roundtrip (sqe : io_uring_sqe) (d : Nat)
    (res : Int) (fl : Nat) (h : d < U64) :
    io_uring_cqe_get_data
      { user_data := (io_uring_sqe_set_data sqe d).user_data,
        res := res, flags := fl } = d := by
  simp only [io_uring_cqe_get_data, io_uring_sqe_set_data]
  exact Nat.mod_eq_of_lt h

/-- Witness for C9 at the concrete token 0x4242. -/
theorem cqe_get_data_roundtrip_witness :
    io_uring_cqe_get_data
      { user_data := (io_uring_sqe_set_data sqe0 16962).user_data,
        res := 0, flags := 0 } = 16962 :=
  cqe_get_data_roundtrip sqe0 16962 0 0 (by decide)

/-- C10: every opcode preparation wrapper goes through
`io_uring_prep_rw` and leaves `user_data = 0`; hence a token stored
with `io_uring_sqe_set_data` before preparation is erased (shown for
the nop wrapper applied to a pre-stamped SQE), while calling the
setter after preparation makes the token survive. -/
theorem prep_wrappers_clear_user_data :
    (∀ op sqe fd addr len offset,
      (io_uring_prep_rw op sqe fd addr len offset).user_data = 0) ∧
    (∀ sqe fd_in off_in fd_out off_out nbytes sf,
      (io_uring_prep_splice sqe fd_in off_in fd_out off_out nbytes
        sf).user_data = 0) ∧
    (∀ sqe fd iovecs nr_vecs offset,
      (io_uring_prep_readv sqe fd iovecs nr_vecs offset).user_data = 0) ∧
    (∀ sqe fd buf nbytes offset bi,
      (io_uring_prep_read_fixed sqe fd buf nbytes offset bi).user_data = 0) ∧
    (∀ sqe fd iovecs nr_vecs offset,
      (io_uring_prep_writev sqe fd iovecs nr_vecs offset).user_data = 0) ∧
    (∀ sqe fd buf nbytes offset bi,
      (io_uring_prep_write_fixed sqe fd buf nbytes offset bi).user_data = 0) ∧
    (∀ sqe fd msg fl,
      (io_uring_prep_recvmsg sqe fd msg fl).user_data = 0) ∧
    (∀ sqe fd msg fl,
      (io_uring_prep_sendmsg sqe fd msg fl).user_data = 0) ∧
    (∀ sqe fd poll_mask,
      (io_uring_prep_poll_add sqe fd poll_mask).user_data = 0) ∧
    (∀ sqe user_data,
      (io_uring_prep_poll_remove sqe user_data).user_data = 0) ∧
    (∀ sqe fd fl,
      (io_uring_prep_fsync sqe fd fl).user_data = 0) ∧
    (∀ sqe, (io_uring_prep_nop sqe).user_data = 0) ∧
    (∀ sqe ts count fl,
      (io_uring_prep_timeout sqe ts count fl).user_data = 0) ∧
    (∀ sqe user_data fl,
      (io_uring_prep_timeout_remove sqe user_data fl).user_data = 0) ∧
    (∀ sqe fd addr addrlen fl,
      (io_uring_prep_accept sqe fd addr addrlen fl).user_data = 0) ∧
    (∀ sqe user_data fl,
      (io_uring_prep_cancel sqe user_data fl).user_data = 0) ∧
    (∀ sqe ts fl,
      (io_uring_prep_link_timeout sqe ts fl).user_data = 0) ∧
    (∀ sqe fd addr addrlen,
      (io_uring_prep_connect sqe fd addr addrlen).user_data = 0) ∧
    (∀ sqe fds nr_fds offset,
      (io_uring_prep_files_update sqe fds nr_fds offset).user_data = 0) ∧
    (∀ sqe fd mode offset len,
      (io_uring_prep_fallocate sqe fd mode offset len).user_data = 0) ∧
    (∀ sqe dfd path fl mode,
      (io_uring_prep_openat sqe dfd path fl mode).user_data = 0) ∧
    (∀ sqe fd, (io_uring_prep_close sqe fd).user_data = 0) ∧
    (∀ sqe fd buf nbytes offset,
      (io_uring_prep_read sqe fd buf nbytes offset).user_data = 0) ∧
    (∀ sqe fd buf nbytes offset,
      (io_uring_prep_write sqe fd buf nbytes offset).user_data = 0) ∧
    (∀ sqe dfd path fl mask statxbuf,
      (io_uring_prep_statx sqe dfd path fl mask statxbuf).user_data = 0) ∧
    (∀ sqe fd offset len advice,
      (io_uring_prep_fadvise sqe fd offset len advice).user_data = 0) ∧
    (∀ sqe addr length advice,
      (io_uring_prep_madvise sqe addr length advice).user_data = 0) ∧
    (∀ sqe sockfd buf len fl,
      (io_uring_prep_send sqe sockfd buf len fl).user_data = 0) ∧
    (∀ sqe sockfd buf len fl,
      (io_uring_prep_recv sqe sockfd buf len fl).user_data = 0) ∧
    (∀ sqe dfd path how,
      (io_uring_prep_openat2 sqe dfd path how).user_data = 0) ∧
    (∀ sqe epfd fd op ev,
      (io_uring_prep_epoll_ctl sqe epfd fd op ev).user_data = 0) ∧
    (∀ sqe addr len nr bgid bid,
      (io_uring_prep_provide_buffers sqe addr len nr bgid bid).user_data
        = 0) ∧
    (∀ sqe nr bgid,
      (io_uring_prep_remove_buffers sqe nr bgid).user_data = 0) ∧
    (∀ sqe d,
      (io_uring_prep_nop (io_uring_sqe_set_data sqe d)).user_data = 0) ∧
    (∀ sqe d,
      (io_uring_sqe_set_data (io_uring_prep_nop sqe) d).user_data
        = d % U64) := by
  repeat' apply And.intro
  all_goals intros
  all_goals rfl

end Liburing
